import Mathlib

/-!
Shallow embedding of the font-descriptor subsystem of
`src/packages/lib-roblox/src/datatypes/types/font.rs`:
the `FontWeight` and `FontStyle` enumerations, the `Font` descriptor,
the `FONT_ENUM_MAP` legacy catalog with `Font::from_enum` resolution,
the Lua field getters/setters for `Weight`, `Style` and `Bold`,
and the conversions to and from the external `rbx_dom_weak` model.
-/

namespace LuneFont

/-- The 9-variant weight enumeration (`enum FontWeight` in the source). -/
inductive FontWeight where
  | Thin
  | ExtraLight
  | Light
  | Regular
  | Medium
  | SemiBold
  | Bold
  | ExtraBold
  | Heavy
deriving DecidableEq, Repr

/-- `FontWeight::as_u16`. -/
def FontWeight.as_u16 : FontWeight → Nat
  | .Thin => 100
  | .ExtraLight => 200
  | .Light => 300
  | .Regular => 400
  | .Medium => 500
  | .SemiBold => 600
  | .Bold => 700
  | .ExtraBold => 800
  | .Heavy => 900

/-- `FontWeight::from_u16`. -/
def FontWeight.from_u16 (n : Nat) : Option FontWeight :=
  match n with
  | 100 => some .Thin
  | 200 => some .ExtraLight
  | 300 => some .Light
  | 400 => some .Regular
  | 500 => some .Medium
  | 600 => some .SemiBold
  | 700 => some .Bold
  | 800 => some .ExtraBold
  | 900 => some .Heavy
  | _ => none

/-- `FromStr for FontWeight`. -/
def FontWeight.from_str (s : String) : Except String FontWeight :=
  match s with
  | "Thin" => .ok .Thin
  | "ExtraLight" => .ok .ExtraLight
  | "Light" => .ok .Light
  | "Regular" => .ok .Regular
  | "Medium" => .ok .Medium
  | "SemiBold" => .ok .SemiBold
  | "Bold" => .ok .Bold
  | "ExtraBold" => .ok .ExtraBold
  | "Heavy" => .ok .Heavy
  | _ => .error "Unknown FontWeight"

/-- `Display for FontWeight` (the `to_string` rendering). -/
def FontWeight.to_string : FontWeight → String
  | .Thin => "Thin"
  | .ExtraLight => "ExtraLight"
  | .Light => "Light"
  | .Regular => "Regular"
  | .Medium => "Medium"
  | .SemiBold => "SemiBold"
  | .Bold => "Bold"
  | .ExtraBold => "ExtraBold"
  | .Heavy => "Heavy"

/-- The 2-variant style enumeration (`enum FontStyle` in the source). -/
inductive FontStyle where
  | Normal
  | Italic
deriving DecidableEq, Repr

/-- `FontStyle::as_u8`. -/
def FontStyle.as_u8 : FontStyle → Nat
  | .Normal => 0
  | .Italic => 1

/-- `FontStyle::from_u8`. -/
def FontStyle.from_u8 (n : Nat) : Option FontStyle :=
  match n with
  | 0 => some .Normal
  | 1 => some .Italic
  | _ => none

/-- `FromStr for FontStyle`. -/
def FontStyle.from_str (s : String) : Except String FontStyle :=
  match s with
  | "Normal" => .ok .Normal
  | "Italic" => .ok .Italic
  | _ => .error "Unknown FontStyle"

/-- `Display for FontStyle`. -/
def FontStyle.to_string : FontStyle → String
  | .Normal => "Normal"
  | .Italic => "Italic"

/-- `struct Font { family, weight, style }`. -/
structure Font where
  family : String
  weight : FontWeight
  style : FontStyle
deriving DecidableEq, Repr

/-- Modelled from the spec: the enum-item value handed to `Font::from_enum`
and to the field setters. The source's `EnumItem` type (declared in a sibling
module not shown) carries a parent-enumeration family identity
(`value.parent.desc.name`) and an enumerator name (`value.name`); only those
two fields are consumed by this subsystem. -/
structure EnumItem where
  parent_name : String
  name : String
deriving DecidableEq, Repr

/-- `type FontData = (&'static str, FontWeight, FontStyle)`. -/
abbrev FontData := String × FontWeight × FontStyle

/-- `const FONT_ENUM_MAP`: the legacy name catalog, transcribed row by row. -/
def FONT_ENUM_MAP : List (String × Option FontData) := [
  ("Legacy",             some ("rbxasset://fonts/families/LegacyArial.json",      .Regular,  .Normal)),
  ("Arial",              some ("rbxasset://fonts/families/Arial.json",            .Regular,  .Normal)),
  ("ArialBold",          some ("rbxasset://fonts/families/Arial.json",            .Bold,     .Normal)),
  ("SourceSans",         some ("rbxasset://fonts/families/SourceSansPro.json",    .Regular,  .Normal)),
  ("SourceSansBold",     some ("rbxasset://fonts/families/SourceSansPro.json",    .Bold,     .Normal)),
  ("SourceSansSemibold", some ("rbxasset://fonts/families/SourceSansPro.json",    .SemiBold, .Normal)),
  ("SourceSansLight",    some ("rbxasset://fonts/families/SourceSansPro.json",    .Light,    .Normal)),
  ("SourceSansItalic",   some ("rbxasset://fonts/families/SourceSansPro.json",    .Regular,  .Italic)),
  ("Bodoni",             some ("rbxasset://fonts/families/AccanthisADFStd.json",  .Regular,  .Normal)),
  ("Garamond",           some ("rbxasset://fonts/families/Guru.json",             .Regular,  .Normal)),
  ("Cartoon",            some ("rbxasset://fonts/families/ComicNeueAngular.json", .Regular,  .Normal)),
  ("Code",               some ("rbxasset://fonts/families/Inconsolata.json",      .Regular,  .Normal)),
  ("Highway",            some ("rbxasset://fonts/families/HighwayGothic.json",    .Regular,  .Normal)),
  ("SciFi",              some ("rbxasset://fonts/families/Zekton.json",           .Regular,  .Normal)),
  ("Arcade",             some ("rbxasset://fonts/families/PressStart2P.json",     .Regular,  .Normal)),
  ("Fantasy",            some ("rbxasset://fonts/families/Balthazar.json",        .Regular,  .Normal)),
  ("Antique",            some ("rbxasset://fonts/families/RomanAntique.json",     .Regular,  .Normal)),
  ("Gotham",             some ("rbxasset://fonts/families/GothamSSm.json",        .Regular,  .Normal)),
  ("GothamMedium",       some ("rbxasset://fonts/families/GothamSSm.json",        .Medium,   .Normal)),
  ("GothamBold",         some ("rbxasset://fonts/families/GothamSSm.json",        .Bold,     .Normal)),
  ("GothamBlack",        some ("rbxasset://fonts/families/GothamSSm.json",        .Heavy,    .Normal)),
  ("AmaticSC",           some ("rbxasset://fonts/families/AmaticSC.json",         .Regular,  .Normal)),
  ("Bangers",            some ("rbxasset://fonts/families/Bangers.json",          .Regular,  .Normal)),
  ("Creepster",          some ("rbxasset://fonts/families/Creepster.json",        .Regular,  .Normal)),
  ("DenkOne",            some ("rbxasset://fonts/families/DenkOne.json",          .Regular,  .Normal)),
  ("Fondamento",         some ("rbxasset://fonts/families/Fondamento.json",       .Regular,  .Normal)),
  ("FredokaOne",         some ("rbxasset://fonts/families/FredokaOne.json",       .Regular,  .Normal)),
  ("GrenzeGotisch",      some ("rbxasset://fonts/families/GrenzeGotisch.json",    .Regular,  .Normal)),
  ("IndieFlower",        some ("rbxasset://fonts/families/IndieFlower.json",      .Regular,  .Normal)),
  ("JosefinSans",        some ("rbxasset://fonts/families/JosefinSans.json",      .Regular,  .Normal)),
  ("Jura",               some ("rbxasset://fonts/families/Jura.json",             .Regular,  .Normal)),
  ("Kalam",              some ("rbxasset://fonts/families/Kalam.json",            .Regular,  .Normal)),
  ("LuckiestGuy",        some ("rbxasset://fonts/families/LuckiestGuy.json",      .Regular,  .Normal)),
  ("Merriweather",       some ("rbxasset://fonts/families/Merriweather.json",     .Regular,  .Normal)),
  ("Michroma",           some ("rbxasset://fonts/families/Michroma.json",         .Regular,  .Normal)),
  ("Nunito",             some ("rbxasset://fonts/families/Nunito.json",           .Regular,  .Normal)),
  ("Oswald",             some ("rbxasset://fonts/families/Oswald.json",           .Regular,  .Normal)),
  ("PatrickHand",        some ("rbxasset://fonts/families/PatrickHand.json",      .Regular,  .Normal)),
  ("PermanentMarker",    some ("rbxasset://fonts/families/PermanentMarker.json",  .Regular,  .Normal)),
  ("Roboto",             some ("rbxasset://fonts/families/Roboto.json",           .Regular,  .Normal)),
  ("RobotoCondensed",    some ("rbxasset://fonts/families/RobotoCondensed.json",  .Regular,  .Normal)),
  ("RobotoMono",         some ("rbxasset://fonts/families/RobotoMono.json",       .Regular,  .Normal)),
  ("Sarpanch",           some ("rbxasset://fonts/families/Sarpanch.json",         .Regular,  .Normal)),
  ("SpecialElite",       some ("rbxasset://fonts/families/SpecialElite.json",     .Regular,  .Normal)),
  ("TitilliumWeb",       some ("rbxasset://fonts/families/TitilliumWeb.json",     .Regular,  .Normal)),
  ("Ubuntu",             some ("rbxasset://fonts/families/Ubuntu.json",           .Regular,  .Normal)),
  ("Unknown",            none)]

/-- `Font::from_enum`: linear scan for the first entry whose name matches and
whose mapping is present, then build the descriptor from the mapped triple. -/
def Font.from_enum (item : EnumItem) : Option Font :=
  ((FONT_ENUM_MAP.find? (fun props => props.1 == item.name && props.2.isSome)).bind
      (fun props => props.2)).map
    (fun props => { family := props.1, weight := props.2.1, style := props.2.2 })

/-- The `Bold` field getter: `this.weight.clone().as_u16() >= 600`. -/
def Font.get_bold (self : Font) : Bool :=
  decide (600 ≤ self.weight.as_u16)

/-- The `Weight` field setter. Mutation of `this` is embedded by returning the
resulting descriptor next to the Lua result; on the error paths the source
never assigns `this.weight`, so the descriptor is returned unchanged. -/
def Font.set_weight (self : Font) (value : EnumItem) : Except String Unit × Font :=
  if value.parent_name = "FontWeight" then
    match FontWeight.from_str value.name with
    | .ok weight => (.ok (), { self with weight := weight })
    | .error e =>
        (.error ("Failed to set value to FontWeight '" ++ value.name ++ "' - " ++ e), self)
  else
    (.error ("Expected value to be a FontWeight, got " ++ value.parent_name), self)

/-- The `Style` field setter, symmetric to the `Weight` setter. -/
def Font.set_style (self : Font) (value : EnumItem) : Except String Unit × Font :=
  if value.parent_name = "FontStyle" then
    match FontStyle.from_str value.name with
    | .ok style => (.ok (), { self with style := style })
    | .error e =>
        (.error ("Failed to set value to FontStyle '" ++ value.name ++ "' - " ++ e), self)
  else
    (.error ("Expected value to be a FontStyle, got " ++ value.parent_name), self)

/-- The `Bold` field setter: `true` forces `FontWeight::Bold`, `false` forces
`FontWeight::Regular`; it always succeeds. -/
def Font.set_bold (self : Font) (value : Bool) : Except String Unit × Font :=
  if value then
    (.ok (), { self with weight := .Bold })
  else
    (.ok (), { self with weight := .Regular })

/-- Modelled from the spec: the external document model's weight enumeration
(`rbx_dom_weak::types::FontWeight`, not part of this repository's sources).
Per the spec it is a closed enumeration agreeing with the core on the 9 valid
numeric codes 100..900. -/
inductive RbxFontWeight where
  | Thin
  | ExtraLight
  | Light
  | Regular
  | Medium
  | SemiBold
  | Bold
  | ExtraBold
  | Heavy
deriving DecidableEq, Repr

/-- Modelled from the spec: the external model's `FontWeight::as_u16`. -/
def RbxFontWeight.as_u16 : RbxFontWeight → Nat
  | .Thin => 100
  | .ExtraLight => 200
  | .Light => 300
  | .Regular => 400
  | .Medium => 500
  | .SemiBold => 600
  | .Bold => 700
  | .ExtraBold => 800
  | .Heavy => 900

/-- Modelled from the spec: the external model's `FontWeight::from_u16`. -/
def RbxFontWeight.from_u16 (n : Nat) : Option RbxFontWeight :=
  match n with
  | 100 => some .Thin
  | 200 => some .ExtraLight
  | 300 => some .Light
  | 400 => some .Regular
  | 500 => some .Medium
  | 600 => some .SemiBold
  | 700 => some .Bold
  | 800 => some .ExtraBold
  | 900 => some .Heavy
  | _ => none

/-- Modelled from the spec: the external model's style enumeration
(`rbx_dom_weak::types::FontStyle`), agreeing with the core on codes 0 and 1. -/
inductive RbxFontStyle where
  | Normal
  | Italic
deriving DecidableEq, Repr

/-- Modelled from the spec: the external model's `FontStyle::as_u8`. -/
def RbxFontStyle.as_u8 : RbxFontStyle → Nat
  | .Normal => 0
  | .Italic => 1

/-- Modelled from the spec: the external model's `FontStyle::from_u8`. -/
def RbxFontStyle.from_u8 (n : Nat) : Option RbxFontStyle :=
  match n with
  | 0 => some .Normal
  | 1 => some .Italic
  | _ => none

/-- Modelled from the spec: the external model's `Font` record, with the opaque
cached-face-identifier field this core always leaves absent. -/
structure RbxFont where
  family : String
  weight : RbxFontWeight
  style : RbxFontStyle
  cached_face_id : Option String
deriving DecidableEq, Repr

/-- `From<RbxFontWeight> for FontWeight`: the source calls
`FontWeight::from_u16(v.as_u16()).expect(..)`; `none` here embeds the
`expect` failure branch. -/
def fontWeightFromRbx (v : RbxFontWeight) : Option FontWeight :=
  FontWeight.from_u16 v.as_u16

/-- `From<FontWeight> for RbxFontWeight` via `RbxFontWeight::from_u16`. -/
def rbxFontWeightFrom (v : FontWeight) : Option RbxFontWeight :=
  RbxFontWeight.from_u16 v.as_u16

/-- `From<RbxFontStyle> for FontStyle` via `FontStyle::from_u8`. -/
def fontStyleFromRbx (v : RbxFontStyle) : Option FontStyle :=
  FontStyle.from_u8 v.as_u8

/-- `From<FontStyle> for RbxFontStyle` via `RbxFontStyle::from_u8`. -/
def rbxFontStyleFrom (v : FontStyle) : Option RbxFontStyle :=
  RbxFontStyle.from_u8 v.as_u8

/-- `From<Font> for RbxFont`: family passed through, weight and style mapped
through their numeric codes, `cached_face_id` always `none`. -/
def fontToRbx (v : Font) : Option RbxFont := do
  let weight ← rbxFontWeightFrom v.weight
  let style ← rbxFontStyleFrom v.style
  pure { family := v.family, weight := weight, style := style, cached_face_id := none }

/-- `From<RbxFont> for Font`: family passed through, weight and style mapped
back through their numeric codes. -/
def fontFromRbx (v : RbxFont) : Option Font := do
  let weight ← fontWeightFromRbx v.weight
  let style ← fontStyleFromRbx v.style
  pure { family := v.family, weight := weight, style := style }

/-- Helper: whether a catalog row, when mapped, resolves through `from_enum`
to exactly the descriptor recorded in that row. -/
def resolvesRow (name : String) (ofd : Option FontData) : Bool :=
  match ofd with
  | none => true
  | some fd =>
      decide (Font.from_enum ⟨"Font", name⟩ =
        some { family := fd.1, weight := fd.2.1, style := fd.2.2 })

lemma catalog_all_resolve :
    (FONT_ENUM_MAP.all fun e => resolvesRow e.1 e.2) = true := by decide

lemma from_enum_only_name (item : EnumItem) :
    Font.from_enum item = Font.from_enum ⟨"Font", item.name⟩ := rfl

lemma from_enum_eq_none_iff (item : EnumItem) :
    Font.from_enum item = none ↔
      FONT_ENUM_MAP.find? (fun props => props.1 == item.name && props.2.isSome) = none := by
  unfold Font.from_enum
  rcases hf : FONT_ENUM_MAP.find? (fun props => props.1 == item.name && props.2.isSome)
    with _ | e
  · rw [hf]
    simp
  · rw [hf]
    have hp := List.find?_some hf
    have hs : e.2.isSome := (Bool.and_eq_true _ _ |>.mp hp).2
    rcases Option.isSome_iff_exists.mp hs with ⟨fd, hfd⟩
    simp [hfd]

/-- C1: every `FontWeight` round-trips through its numeric code
(`from_u16 (as_u16 w) = some w`) and through its display name
(`from_str (to_string w) = ok w`); the same two laws hold for `FontStyle`. -/
theorem weight_style_roundtrip :
    (∀ w : FontWeight, FontWeight.from_u16 w.as_u16 = some w ∧
      FontWeight.from_str w.to_string = .ok w) ∧
    (∀ s : FontStyle, FontStyle.from_u8 s.as_u8 = some s ∧
      FontStyle.from_str s.to_string = .ok s) := by
  constructor <;> intro x <;> cases x <;> exact ⟨rfl, rfl⟩

/-- C2: every mapped row of the legacy catalog resolves via `Font.from_enum`
to the descriptor whose family, weight and style are exactly the row's. -/
theorem catalog_completeness (item : EnumItem) (fd : FontData)
    (h : (item.name, some fd) ∈ FONT_ENUM_MAP) :
    Font.from_enum item =
      some { family := fd.1, weight := fd.2.1, style := fd.2.2 } := by
  have hall := List.all_eq_true.mp catalog_all_resolve _ h
  rw [from_enum_only_name]
  simpa [resolvesRow] using hall

theorem catalog_completeness_witness :
    Font.from_enum ⟨"Font", "Arial"⟩ =
      some { family := "rbxasset://fonts/families/Arial.json",
             weight := FontWeight.Regular, style := FontStyle.Normal } :=
  catalog_completeness ⟨"Font", "Arial"⟩
    ("rbxasset://fonts/families/Arial.json", FontWeight.Regular, FontStyle.Normal)
    (by decide)

/-- C3: reading `Bold` yields true exactly when the weight's numeric code is
at least 600; setting `Bold` to true forces weight `Bold`, setting it to false
forces weight `Regular` regardless of the previous weight, and the `Bold`
setter always succeeds on a boolean input. -/
theorem bold_field_contract (self : Font) :
    (self.get_bold = true ↔ 600 ≤ self.weight.as_u16) ∧
    (self.set_bold true).2.weight = FontWeight.Bold ∧
    (self.set_bold false).2.weight = FontWeight.Regular ∧
    (∀ b : Bool, (self.set_bold b).1 = .ok ()) := by
  refine ⟨?_, rfl, rfl, ?_⟩
  · simp [Font.get_bold]
  · intro b; cases b <;> rfl

/-- C4: converting any descriptor to the external model's `Font` and back
yields the original descriptor (family unchanged, weight and style preserved
through the numeric-code mapping). -/
theorem conversion_roundtrip (v : Font) :
    (fontToRbx v).bind fontFromRbx = some v := by
  obtain ⟨fam, w, s⟩ := v
  cases w <;> cases s <;> rfl

/-- C5: legacy-name resolution returns `none` exactly when no catalog entry
has both the requested name (case-sensitive) and a present mapping; in
particular resolving "Unknown" (present but unmapped) and "NotAFont" (absent)
both yield `none`. -/
theorem legacy_lookup_notfound :
    (∀ item : EnumItem,
      Font.from_enum item = none ↔
        ∀ e ∈ FONT_ENUM_MAP, ¬(e.1 = item.name ∧ e.2.isSome = true)) ∧
    Font.from_enum ⟨"Font", "Unknown"⟩ = none ∧
    Font.from_enum ⟨"Font", "NotAFont"⟩ = none := by
  refine ⟨fun item => ?_, by decide, by decide⟩
  rw [from_enum_eq_none_iff, List.find?_eq_none]
  constructor
  · intro h e he
    have := h e he
    simpa [Bool.and_eq_true, beq_iff_eq] using this
  · intro h e he
    have := h e he
    simpa [Bool.and_eq_true, beq_iff_eq] using this

/-- C6: setting `Weight` with an enum item from a different enumeration
family fails with an error reporting the family actually received, and the
descriptor is left unchanged. -/
theorem weight_setter_wrong_family (self : Font) (value : EnumItem)
    (h : value.parent_name ≠ "FontWeight") :
    self.set_weight value =
      (.error ("Expected value to be a FontWeight, got " ++ value.parent_name), self) := by
  unfold Font.set_weight
  rw [if_neg h]

theorem weight_setter_wrong_family_witness :
    Font.set_weight ⟨"Arial", FontWeight.Regular, FontStyle.Normal⟩
        ⟨"FontStyle", "Italic"⟩ =
      (.error ("Expected value to be a FontWeight, got " ++ "FontStyle"),
        (⟨"Arial", FontWeight.Regular, FontStyle.Normal⟩ : Font)) :=
  weight_setter_wrong_family ⟨"Arial", FontWeight.Regular, FontStyle.Normal⟩
    ⟨"FontStyle", "Italic"⟩ (by decide)

/-- C7 counterexample: the legacy catalog does not have exactly 45 mapped
rows (it has 46). -/
theorem catalog_size_counterexample :
    ¬ (FONT_ENUM_MAP.filter fun e => e.2.isSome).length = 45 := by decide

/-- C7 amended: the legacy catalog contains exactly 46 mapped rows plus the
single reserved unmapped "Unknown" entry (47 entries in total), and the name
vocabulary includes the ten enumerated names. -/
theorem catalog_size_amended :
    (FONT_ENUM_MAP.filter fun e => e.2.isSome).length = 46 ∧
    (FONT_ENUM_MAP.filter fun e => e.2.isNone).map Prod.fst = ["Unknown"] ∧
    FONT_ENUM_MAP.length = 47 ∧
    (["Legacy", "Arial", "ArialBold", "SourceSans", "SourceSansBold",
      "SourceSansSemibold", "SourceSansLight", "SourceSansItalic", "Bodoni",
      "Garamond"].all fun n => (FONT_ENUM_MAP.map Prod.fst).contains n) = true := by
  decide

/-- C8: every valid external weight code (100..900 step 100) and style code
(0, 1) converts back into the core's enumerations, so for every value of the
external enumerations the `expect` failure branch of the external→descriptor
conversion is unreachable. -/
theorem external_codes_convert :
    (∀ n ∈ [100, 200, 300, 400, 500, 600, 700, 800, 900],
      (FontWeight.from_u16 n).isSome = true) ∧
    (∀ n ∈ [0, 1], (FontStyle.from_u8 n).isSome = true) ∧
    (∀ w : RbxFontWeight, (fontWeightFromRbx w).isSome = true) ∧
    (∀ s : RbxFontStyle, (fontStyleFromRbx s).isSome = true) := by
  refine ⟨by decide, by decide, fun w => ?_, fun s => ?_⟩
  · cases w <;> rfl
  · cases s <;> rfl

/-- C9: the catalog's name strings are pairwise distinct, and the single
"Unknown" row is the only entry with an absent mapping. -/
theorem catalog_invariants :
    (FONT_ENUM_MAP.map Prod.fst).Nodup ∧
    (FONT_ENUM_MAP.filter fun e => e.2.isNone) = [("Unknown", none)] := by
  decide

/-- C10: the `Bold` setter changes at most the weight field: family and style
are unchanged for either boolean input. -/
theorem bold_setter_frame (self : Font) (b : Bool) :
    (self.set_bold b).2.family = self.family ∧
    (self.set_bold b).2.style = self.style := by
  cases b <;> exact ⟨rfl, rfl⟩

end LuneFont
